import Mathlib

/-!
Shallow embedding of the MCP session-translating proxy core from
`src/server.mjs`: the SSE stream-payload decoder (`extractFirstSseDataJson`),
the upstream call helper (`callUpstreamMcp`), the module-level session map,
and the `POST /mcp` request handler with its three dispatch paths
(notification, initialize, bound call) and single catch boundary.

JavaScript values appearing in request/response bodies are modelled by the
inductive `Json`.  JS string truthiness is explicit: the empty string is
falsy.  The JS builtin `JSON.parse` is a parameter (`JsonParse`); the
outcome of the single `fetch` a request can perform, the `Date.now()` value
and the `Math.random()` digits are supplied by an `Env` record, so the
handler is a pure function of the environment, the session table, the
request body and the `Mcp-Session-Id` request header.  Alongside the HTTP
response and the new session table, the handler returns the list of
upstream calls it issued (the session header sent upstream and the
forwarded rpc body), so that claims about which upstream calls happen are
statable.
-/

/-- JSON values (JS values that can appear in parsed request bodies). -/
inductive Json where
  | null
  | bool (b : Bool)
  | num (n : Int)
  | str (s : String)
  | arr (elems : List Json)
  | obj (fields : List (String × Json))

/-- Character-list equality of strings; kernel-reducible stand-in for JS
string equality. -/
def strEq (a b : String) : Bool :=
  a.data == b.data

/-- JS string truthiness test for emptiness: the empty string is falsy. -/
def strIsEmpty (s : String) : Bool :=
  s.data.isEmpty

/-- Does the character list `s` start with the character list `m`?
Models the JS `String.prototype.startsWith` used on `"data: "` and
`"notifications/"`. -/
def startsWithList : List Char → List Char → Bool
  | _, [] => true
  | [], _ :: _ => false
  | c :: cs, d :: ds => c == d && startsWithList cs ds

/-- JS `rawSseText.split(String.fromCharCode(10))`: split a character list at
every newline; the empty list yields one empty line, like JS `split`. -/
def splitOnNl : List Char → List (List Char)
  | [] => [[]]
  | c :: cs =>
    if c = '\n' then
      [] :: splitOnNl cs
    else
      match splitOnNl cs with
      | [] => [[c]]
      | l :: ls => (c :: l) :: ls

/-- Model of the JS builtin `JSON.parse`: returns the parsed value or the
engine message of the thrown `SyntaxError`. -/
abbrev JsonParse := String → Except String Json

/-- The two failure modes of the stream-payload decoder: the explicit throw
when no line carries the data marker, and a propagated `JSON.parse` error. -/
inductive SseError where
  | decodeError (msg : String)
  | parseError (msg : String)

/-- The message carried by the thrown JS `Error`. -/
def SseError.message : SseError → String
  | .decodeError m => m
  | .parseError m => m

/-- The fixed SSE data-line marker of `server.mjs`. -/
def sseMarker : String := "data: "

/-- Model of `extractFirstSseDataJson(rawSseText)` from `server.mjs`: split on
newlines, find the first line starting with the data marker, throw when
there is none, else `JSON.parse` the remainder after the marker. -/
def extractFirstSseDataJson (parse : JsonParse) (rawSseText : String) :
    Except SseError Json :=
  match (splitOnNl rawSseText.data).find? (fun line => startsWithList line sseMarker.data) with
  | none =>
    .error (.decodeError ("No SSE data line found. Raw: " ++ String.mk (rawSseText.data.take 500)))
  | some dataLine =>
    match parse (String.mk (dataLine.drop sseMarker.data.length)) with
    | .error m => .error (.parseError m)
    | .ok j => .ok j

/-- The observable part of an upstream `fetch` resolution: `response.ok`,
`response.status`, the `Mcp-Session-Id` response header (header lookup is
case-insensitive, so the two JS lookups are one field) and the body text. -/
structure FetchResp where
  ok : Bool
  status : Nat
  sessionHeader : Option String
  body : String

/-- Per-request environment: the outcome of the at-most-one upstream
`fetch` (`Except.error` models a rejected promise carrying the error
message), the `Date.now()` value and `Math.random()` hex digits feeding
`generateSessionId`, and the `JSON.parse` builtin. -/
structure Env where
  fetchResult : Except String FetchResp
  now : Nat
  randPart : String
  parse : JsonParse

/-- Model of the function callUpstreamMcp from `server.mjs`: on a
rejected fetch the error propagates; on a non-ok status it throws
`Upstream MCP error: <status> <body>`; otherwise it decodes the body and
returns the upstream session header, falling back to the argument, with the
decoded payload. -/
def callUpstreamMcp (env : Env) (upstreamSessionId : Option String) :
    Except String (Option String × Json) :=
  match env.fetchResult with
  | .error e => .error e
  | .ok resp =>
    if resp.ok then
      match extractFirstSseDataJson env.parse resp.body with
      | .error e => .error e.message
      | .ok payload =>
        .ok (resp.sessionHeader.orElse (fun _ => upstreamSessionId), payload)
    else
      .error ("Upstream MCP error: " ++ toString resp.status ++ " " ++ resp.body)

/-- The module-level `sessionMap = new Map()`: proxy session id to upstream
session id.  `Map.prototype.get` observes the most recent `set`, so the map
is an association list read front-to-back and written by consing. -/
abbrev SessionMap := List (String × String)

/-- Lookup `sessionMap.get(k)`. -/
def mapGet (st : SessionMap) (k : String) : Option String :=
  (st.find? (fun p => strEq p.1 k)).map (fun p => p.2)

/-- Insertion `sessionMap.set(k, v)`. -/
def mapSet (st : SessionMap) (k v : String) : SessionMap :=
  (k, v) :: st

/-- Model of `generateSessionId()` from `server.mjs`:
`Date.now().toString(16)` followed by a dash and the fractional hex digits
of `Math.random()`. -/
def generateSessionId (now : Nat) (randPart : String) : String :=
  String.mk (Nat.toDigits 16 now) ++ "-" ++ randPart

/-- Field access `rpc.method` when it is a string; `none` exactly when the JS malformed
check fires (the body is falsy, not of typeof object, or its method field
is not of typeof string; only objects carry fields). -/
def Json.getMethod : Json → Option String
  | .obj fields =>
    match fields.find? (fun p => strEq p.1 "method") with
    | some (_, .str m) => some m
    | _ => none
  | _ => none

/-- Generic field lookup, used for `rpc.id`. -/
def Json.getField : Json → String → Option Json
  | .obj fields, k => (fields.find? (fun p => strEq p.1 k)).map (fun p => p.2)
  | _, _ => none

/-- The default expression `rpc.id ?? null`. -/
def idOrNull (rpc : Json) : Json :=
  (rpc.getField "id").getD Json.null

/-- JS truthiness filter on a nullable string: `null` and the empty string
are falsy. -/
def truthyOpt : Option String → Option String
  | none => none
  | some s => if strIsEmpty s then none else some s

/-- The composed session resolution of the handler:
`clientSessionId ? sessionMap.get(clientSessionId) : null` followed by the
`if (!upstreamSessionId)` truthiness test on the looked-up value. -/
def resolveSession (st : SessionMap) (clientSessionId : Option String) : Option String :=
  match clientSessionId with
  | none => none
  | some s => if strIsEmpty s then none else truthyOpt (mapGet st s)

/-- A JSON-RPC error body as built by the handler. -/
def jsonRpcError (idv : Json) (code : Int) (message : String) : Json :=
  Json.obj [("jsonrpc", Json.str "2.0"), ("id", idv),
    ("error", Json.obj [("code", Json.num code), ("message", Json.str message)])]

/-- A response body: `res.end()` with no body, or a JSON document sent by
`sendJson`. -/
inductive RespBody where
  | empty
  | json (j : Json)

/-- The observable HTTP response of the handler: status code, the
`Mcp-Session-Id` response header, and the body. -/
structure HttpResponse where
  status : Nat
  sessionHeader : Option String
  body : RespBody

/-- A record of one upstream call made while handling a request: the
`Mcp-Session-Id` header sent upstream (`none` when omitted) and the
forwarded JSON-RPC body. -/
structure UpstreamCall where
  sessionId : Option String
  rpc : Json

/-- The reserved notification method marker. -/
def notifMarker : String := "notifications/"

/-- The body of the `try` block of the `app.post` handler on `/mcp`:
malformed check, then the notification / initialize / bound-call three-way
dispatch on `rpc.method`.  An `Except.error` is an exception escaping to
the catch boundary. -/
def handleInner (env : Env) (st : SessionMap) (rpc : Json) (clientSessionId : Option String) :
    Except String HttpResponse × SessionMap × List UpstreamCall :=
  match rpc.getMethod with
  | none =>
    (.ok { status := 400, sessionHeader := none,
           body := .json (jsonRpcError Json.null (-32600) "Invalid Request") }, st, [])
  | some method =>
    if startsWithList method.data notifMarker.data then
      match resolveSession st clientSessionId with
      | none => (.ok { status := 204, sessionHeader := none, body := .empty }, st, [])
      | some u =>
        match env.fetchResult with
        | .error e => (.error e, st, [{ sessionId := some u, rpc := rpc }])
        | .ok _ =>
          (.ok { status := 204, sessionHeader := clientSessionId, body := .empty },
           st, [{ sessionId := some u, rpc := rpc }])
    else if strEq method "initialize" then
      match callUpstreamMcp env none with
      | .error e => (.error e, st, [{ sessionId := none, rpc := rpc }])
      | .ok (upSid, payload) =>
        match truthyOpt upSid with
        | none =>
          (.ok { status := 500, sessionHeader := none,
                 body := .json (jsonRpcError (idOrNull rpc) (-32000)
                   "Upstream did not return Mcp-Session-Id") },
           st, [{ sessionId := none, rpc := rpc }])
        | some u =>
          (.ok { status := 200,
                 sessionHeader := some (generateSessionId env.now env.randPart),
                 body := .json payload },
           mapSet st (generateSessionId env.now env.randPart) u,
           [{ sessionId := none, rpc := rpc }])
    else
      match resolveSession st clientSessionId with
      | none =>
        (.ok { status := 400, sessionHeader := none,
               body := .json (jsonRpcError (idOrNull rpc) (-32000)
                 "Missing or unknown Mcp-Session-Id. Call initialize first.") }, st, [])
      | some u =>
        match callUpstreamMcp env (some u) with
        | .error e => (.error e, st, [{ sessionId := some u, rpc := rpc }])
        | .ok (_, payload) =>
          (.ok { status := 200, sessionHeader := clientSessionId, body := .json payload },
           st, [{ sessionId := some u, rpc := rpc }])

/-- The catch block of the handler: JSON-RPC error `-32000` carrying the
exception message, id `null`, HTTP 500, no session header. -/
def catchResponse (msg : String) : HttpResponse :=
  { status := 500, sessionHeader := none,
    body := .json (jsonRpcError Json.null (-32000) msg) }

/-- The whole `app.post` handler on `/mcp`: the `try` body wrapped by the
single catch boundary. -/
def handleMcpPost (env : Env) (st : SessionMap) (rpc : Json) (clientSessionId : Option String) :
    HttpResponse × SessionMap × List UpstreamCall :=
  match handleInner env st rpc clientSessionId with
  | (.ok r, st2, calls) => (r, st2, calls)
  | (.error e, st2, calls) => (catchResponse e, st2, calls)

/-- Invariant of the session table: every stored proxy session id and every
stored upstream session id is a truthy (non-empty) string. -/
def SessionInv (st : SessionMap) : Prop :=
  ∀ p ∈ st, p.1 ≠ "" ∧ p.2 ≠ ""

/-! Concrete fixtures used to instantiate the theorems below. -/

/-- A toy instantiation of the `JSON.parse` parameter: parses the single
document `1`. -/
def parse0 : JsonParse :=
  fun s => if strEq s "1" then .ok (Json.num 1) else .error "Unexpected token"

/-- A well-formed initialize request. -/
def rpcInit : Json :=
  Json.obj [("jsonrpc", Json.str "2.0"), ("id", Json.num 1),
    ("method", Json.str "initialize"), ("params", Json.obj [])]

/-- A well-formed bound call with id 2. -/
def rpcBound : Json :=
  Json.obj [("jsonrpc", Json.str "2.0"), ("id", Json.num 2),
    ("method", Json.str "tools/call"), ("params", Json.obj [])]

/-- A well-formed bound call with id 7. -/
def rpcBound7 : Json :=
  Json.obj [("jsonrpc", Json.str "2.0"), ("id", Json.num 7),
    ("method", Json.str "tools/call"), ("params", Json.obj [])]

/-- A notification request. -/
def rpcNotif : Json :=
  Json.obj [("jsonrpc", Json.str "2.0"), ("method", Json.str "notifications/initialized")]

/-- Environment whose upstream fetch succeeds, returns session header `U1`
and an SSE body carrying the document `1`. -/
def envOk : Env :=
  { fetchResult := .ok { ok := true, status := 200, sessionHeader := some "U1", body := "data: 1" },
    now := 0, randPart := "r", parse := parse0 }

/-- Environment whose upstream fetch succeeds but returns no session
header. -/
def envNoSid : Env :=
  { fetchResult := .ok { ok := true, status := 200, sessionHeader := none, body := "data: 1" },
    now := 0, randPart := "r", parse := parse0 }

/-- Environment whose upstream fetch rejects with message `boom`. -/
def envErr : Env :=
  { fetchResult := .error "boom", now := 0, randPart := "r", parse := parse0 }

/-- Environment whose upstream fetch resolves with a non-success HTTP
status. -/
def badStatusResp : FetchResp :=
  { ok := false, status := 500, sessionHeader := none, body := "upstream exploded" }

def envBadStatus : Env :=
  { fetchResult := .ok badStatusResp, now := 0, randPart := "r", parse := parse0 }

/-! String and session-map helper lemmas. -/

theorem strEq_iff (a b : String) : strEq a b = true ↔ a = b := by
  unfold strEq
  rw [beq_iff_eq]
  exact ⟨String.ext, congrArg String.data⟩

theorem strEq_self (a : String) : strEq a a = true :=
  (strEq_iff a a).mpr rfl

theorem strEq_false_of_ne {a b : String} (h : a ≠ b) : strEq a b = false := by
  rcases hb : strEq a b
  · rfl
  · exact absurd ((strEq_iff a b).mp hb) h

theorem ne_empty_of_strIsEmpty_false {s : String} (h : strIsEmpty s = false) : s ≠ "" := by
  intro he
  subst he
  exact absurd h (by decide)

theorem strIsEmpty_false_of_ne {s : String} (h : s ≠ "") : strIsEmpty s = false := by
  cases s with
  | mk d =>
    cases d with
    | nil => exact absurd rfl h
    | cons c cs => rfl

theorem truthyOpt_eq_some {o : Option String} {u : String} (h : truthyOpt o = some u) :
    o = some u ∧ u ≠ "" := by
  cases o with
  | none => cases h
  | some s =>
    have h2 : truthyOpt (some s) = (if strIsEmpty s then none else some s) := rfl
    rw [h2] at h
    rcases he : strIsEmpty s with _ | _
    · rw [he] at h
      simp at h
      subst h
      exact ⟨rfl, ne_empty_of_strIsEmpty_false he⟩
    · rw [he] at h
      simp at h

theorem generateSessionId_ne_empty (now : Nat) (r : String) : generateSessionId now r ≠ "" := by
  unfold generateSessionId
  intro h
  have h2 := congrArg String.length h
  rw [String.length_append, String.length_append] at h2
  have h3 : ("-" : String).length = 1 := rfl
  have h4 : ("" : String).length = 0 := rfl
  rw [h3, h4] at h2
  omega

theorem mapGet_mapSet_self (st : SessionMap) (k v : String) :
    mapGet (mapSet st k v) k = some v := by
  simp [mapGet, mapSet, List.find?_cons, strEq_self]

theorem mapGet_mapSet_ne {k P : String} (st : SessionMap) (v : String) (h : k ≠ P) :
    mapGet (mapSet st k v) P = mapGet st P := by
  simp [mapGet, mapSet, List.find?_cons, strEq_false_of_ne h]

theorem mapGet_isSome_mapSet {st : SessionMap} {P : String} (k v : String)
    (h : (mapGet st P).isSome = true) : (mapGet (mapSet st k v) P).isSome = true := by
  by_cases hk : k = P
  · subst hk
    simp [mapGet_mapSet_self]
  · rw [mapGet_mapSet_ne st v hk]
    exact h

theorem mapGet_mem {st : SessionMap} {P U : String} (h : mapGet st P = some U) :
    (P, U) ∈ st := by
  unfold mapGet at h
  rcases hf : st.find? (fun p => strEq p.1 P) with _ | p
  · rw [hf] at h
    cases h
  · rw [hf] at h
    have hp := List.find?_some hf
    have hmem := List.mem_of_find?_eq_some hf
    simp at h
    have h1 : p.1 = P := (strEq_iff p.1 P).mp hp
    rcases p with ⟨a, b⟩
    simp at h1 h
    subst h1
    subst h
    exact hmem

/-! Branch characterizations of the handler. -/

theorem handleMcpPost_of_ok {env : Env} {st : SessionMap} {rpc : Json} {hdr : Option String}
    {r : HttpResponse} {s : SessionMap} {c : List UpstreamCall}
    (h : handleInner env st rpc hdr = (.ok r, s, c)) :
    handleMcpPost env st rpc hdr = (r, s, c) := by
  unfold handleMcpPost
  rw [h]

theorem handleMcpPost_of_error {env : Env} {st : SessionMap} {rpc : Json} {hdr : Option String}
    {e : String} {s : SessionMap} {c : List UpstreamCall}
    (h : handleInner env st rpc hdr = (.error e, s, c)) :
    handleMcpPost env st rpc hdr = (catchResponse e, s, c) := by
  unfold handleMcpPost
  rw [h]

theorem resolveSession_unknown {st : SessionMap} {P : String} (h : mapGet st P = none) :
    resolveSession st (some P) = none := by
  unfold resolveSession
  rcases he : strIsEmpty P with _ | _ <;> simp [he, h, truthyOpt]

theorem resolveSession_known {st : SessionMap} {P U : String} (hP : P ≠ "") (hU : U ≠ "")
    (h : mapGet st P = some U) : resolveSession st (some P) = some U := by
  unfold resolveSession
  simp [strIsEmpty_false_of_ne hP, h, truthyOpt, strIsEmpty_false_of_ne hU]

theorem init_not_notif : startsWithList ("initialize" : String).data notifMarker.data = false := by
  decide

theorem handleInner_malformed {env : Env} {st : SessionMap} {rpc : Json} {hdr : Option String}
    (h : rpc.getMethod = none) :
    handleInner env st rpc hdr =
      (.ok { status := 400, sessionHeader := none,
             body := .json (jsonRpcError Json.null (-32600) "Invalid Request") }, st, []) := by
  unfold handleInner
  rw [h]

theorem handleInner_notif_unknown {env : Env} {st : SessionMap} {rpc : Json} {hdr : Option String}
    {m : String} (hm : rpc.getMethod = some m)
    (hs : startsWithList m.data notifMarker.data = true)
    (hr : resolveSession st hdr = none) :
    handleInner env st rpc hdr =
      (.ok { status := 204, sessionHeader := none, body := .empty }, st, []) := by
  unfold handleInner
  rw [hm]
  simp [hs, hr]

theorem handleInner_notif_fetchErr {env : Env} {st : SessionMap} {rpc : Json} {hdr : Option String}
    {m u e : String} (hm : rpc.getMethod = some m)
    (hs : startsWithList m.data notifMarker.data = true)
    (hr : resolveSession st hdr = some u) (hf : env.fetchResult = .error e) :
    handleInner env st rpc hdr = (.error e, st, [{ sessionId := some u, rpc := rpc }]) := by
  unfold handleInner
  rw [hm]
  simp [hs, hr, hf]

theorem handleInner_notif_fetchOk {env : Env} {st : SessionMap} {rpc : Json} {hdr : Option String}
    {m u : String} {fr : FetchResp} (hm : rpc.getMethod = some m)
    (hs : startsWithList m.data notifMarker.data = true)
    (hr : resolveSession st hdr = some u) (hf : env.fetchResult = .ok fr) :
    handleInner env st rpc hdr =
      (.ok { status := 204, sessionHeader := hdr, body := .empty }, st,
       [{ sessionId := some u, rpc := rpc }]) := by
  unfold handleInner
  rw [hm]
  simp [hs, hr, hf]

theorem handleInner_init_callErr {env : Env} {st : SessionMap} {rpc : Json} {hdr : Option String}
    {e : String} (hm : rpc.getMethod = some "initialize")
    (hc : callUpstreamMcp env none = .error e) :
    handleInner env st rpc hdr = (.error e, st, [{ sessionId := none, rpc := rpc }]) := by
  unfold handleInner
  rw [hm]
  simp +decide [strEq_self, hc]

theorem handleInner_init_noSid {env : Env} {st : SessionMap} {rpc : Json} {hdr : Option String}
    {upSid : Option String} {payload : Json} (hm : rpc.getMethod = some "initialize")
    (hc : callUpstreamMcp env none = .ok (upSid, payload)) (ht : truthyOpt upSid = none) :
    handleInner env st rpc hdr =
      (.ok { status := 500, sessionHeader := none,
             body := .json (jsonRpcError (idOrNull rpc) (-32000)
               "Upstream did not return Mcp-Session-Id") },
       st, [{ sessionId := none, rpc := rpc }]) := by
  unfold handleInner
  rw [hm]
  simp +decide [strEq_self, hc, ht]

theorem handleInner_init_ok {env : Env} {st : SessionMap} {rpc : Json} {hdr : Option String}
    {upSid : Option String} {payload : Json} {u : String}
    (hm : rpc.getMethod = some "initialize")
    (hc : callUpstreamMcp env none = .ok (upSid, payload)) (ht : truthyOpt upSid = some u) :
    handleInner env st rpc hdr =
      (.ok { status := 200, sessionHeader := some (generateSessionId env.now env.randPart),
             body := .json payload },
       mapSet st (generateSessionId env.now env.randPart) u,
       [{ sessionId := none, rpc := rpc }]) := by
  unfold handleInner
  rw [hm]
  simp +decide [strEq_self, hc, ht]

theorem handleInner_bound_unknown {env : Env} {st : SessionMap} {rpc : Json} {hdr : Option String}
    {m : String} (hm : rpc.getMethod = some m)
    (hs : startsWithList m.data notifMarker.data = false) (hne : m ≠ "initialize")
    (hr : resolveSession st hdr = none) :
    handleInner env st rpc hdr =
      (.ok { status := 400, sessionHeader := none,
             body := .json (jsonRpcError (idOrNull rpc) (-32000)
               "Missing or unknown Mcp-Session-Id. Call initialize first.") }, st, []) := by
  unfold handleInner
  rw [hm]
  simp [hs, strEq_false_of_ne hne, hr]

theorem handleInner_bound_callErr {env : Env} {st : SessionMap} {rpc : Json} {hdr : Option String}
    {m u e : String} (hm : rpc.getMethod = some m)
    (hs : startsWithList m.data notifMarker.data = false) (hne : m ≠ "initialize")
    (hr : resolveSession st hdr = some u) (hc : callUpstreamMcp env (some u) = .error e) :
    handleInner env st rpc hdr = (.error e, st, [{ sessionId := some u, rpc := rpc }]) := by
  unfold handleInner
  rw [hm]
  simp [hs, strEq_false_of_ne hne, hr, hc]

theorem handleInner_bound_ok {env : Env} {st : SessionMap} {rpc : Json} {hdr : Option String}
    {m u : String} {sid : Option String} {payload : Json} (hm : rpc.getMethod = some m)
    (hs : startsWithList m.data notifMarker.data = false) (hne : m ≠ "initialize")
    (hr : resolveSession st hdr = some u) (hc : callUpstreamMcp env (some u) = .ok (sid, payload)) :
    handleInner env st rpc hdr =
      (.ok { status := 200, sessionHeader := hdr, body := .json payload }, st,
       [{ sessionId := some u, rpc := rpc }]) := by
  unfold handleInner
  rw [hm]
  simp [hs, strEq_false_of_ne hne, hr, hc]

/-- Exhaustive enumeration of the session-table effect of a request: either
the table is untouched, or the request was a successful initialize, the
response status is 200 and the table gained the freshly generated proxy id
bound to a truthy upstream id. -/
theorem handleMcpPost_state_cases (env : Env) (st : SessionMap) (rpc : Json)
    (hdr : Option String) :
    (handleMcpPost env st rpc hdr).2.1 = st
    ∨ (rpc.getMethod = some "initialize" ∧ (handleMcpPost env st rpc hdr).1.status = 200
       ∧ ∃ u, u ≠ ""
         ∧ (handleMcpPost env st rpc hdr).2.1 = mapSet st (generateSessionId env.now env.randPart) u) := by
  rcases hm : rpc.getMethod with _ | m
  · left
    rw [handleMcpPost_of_ok (handleInner_malformed hm)]
  · rcases hs : startsWithList m.data notifMarker.data with _ | _
    · by_cases hi : m = "initialize"
      · subst hi
        rcases hc : callUpstreamMcp env none with e | ⟨upSid, payload⟩
        · left
          rw [handleMcpPost_of_error (handleInner_init_callErr hm hc)]
        · rcases ht : truthyOpt upSid with _ | u
          · left
            rw [handleMcpPost_of_ok (handleInner_init_noSid hm hc ht)]
          · right
            rw [handleMcpPost_of_ok (handleInner_init_ok hm hc ht)]
            exact ⟨rfl, rfl, u, (truthyOpt_eq_some ht).2, rfl⟩
      · rcases hr : resolveSession st hdr with _ | u
        · left
          rw [handleMcpPost_of_ok (handleInner_bound_unknown hm hs hi hr)]
        · rcases hc : callUpstreamMcp env (some u) with e | ⟨sid, payload⟩
          · left
            rw [handleMcpPost_of_error (handleInner_bound_callErr hm hs hi hr hc)]
          · left
            rw [handleMcpPost_of_ok (handleInner_bound_ok hm hs hi hr hc)]
    · rcases hr : resolveSession st hdr with _ | u
      · left
        rw [handleMcpPost_of_ok (handleInner_notif_unknown hm hs hr)]
      · rcases hf : env.fetchResult with e | fr
        · left
          rw [handleMcpPost_of_error (handleInner_notif_fetchErr hm hs hr hf)]
        · left
          rw [handleMcpPost_of_ok (handleInner_notif_fetchOk hm hs hr hf)]

theorem find?_first {p : List Char → Bool} (pre : List (List Char)) {L : List Char}
    (hpre : ∀ l ∈ pre, p l = false) (hL : p L = true) (post : List (List Char)) :
    (pre ++ L :: post).find? p = some L := by
  induction pre with
  | nil => simp [List.find?_cons, hL]
  | cons a as ih =>
    have ha : p a = false := hpre a (by simp)
    rw [List.cons_append, List.find?_cons, ha]
    exact ih (fun l hl => hpre l (by simp [hl]))

/-- C5: the stream-payload decoder scans lines in order: when no line begins
with the data marker it fails with the decode error built from the raw text,
and when the line list splits as `pre ++ L :: post` with no marker line in
`pre` and `L` carrying the marker, the result is exactly the parse of the
remainder of `L` after the marker — a parse failure propagates as a parse
error, a parse success is returned, and the first matching line wins. -/
theorem c5_sse_decoder (parse : JsonParse) (raw : String) :
    ((∀ l ∈ splitOnNl raw.data, startsWithList l sseMarker.data = false) →
      extractFirstSseDataJson parse raw =
        .error (.decodeError ("No SSE data line found. Raw: " ++ String.mk (raw.data.take 500))))
    ∧ (∀ pre L post, splitOnNl raw.data = pre ++ L :: post →
        (∀ l ∈ pre, startsWithList l sseMarker.data = false) →
        startsWithList L sseMarker.data = true →
        ((∀ m, parse (String.mk (L.drop sseMarker.data.length)) = .error m →
            extractFirstSseDataJson parse raw = .error (.parseError m))
         ∧ (∀ j, parse (String.mk (L.drop sseMarker.data.length)) = .ok j →
            extractFirstSseDataJson parse raw = .ok j))) := by
  constructor
  · intro hall
    have hf : (splitOnNl raw.data).find? (fun line => startsWithList line sseMarker.data) = none := by
      rw [List.find?_eq_none]
      intro x hx
      simp [hall x hx]
    unfold extractFirstSseDataJson
    rw [hf]
  · intro pre L post hsplit hpre hL
    have hf : (splitOnNl raw.data).find? (fun line => startsWithList line sseMarker.data) = some L := by
      rw [hsplit]
      exact find?_first pre hpre hL post
    constructor
    · intro m hm
      unfold extractFirstSseDataJson
      rw [hf]
      simp only [hm]
    · intro j hj
      unfold extractFirstSseDataJson
      rw [hf]
      simp only [hj]

theorem c5_sse_decoder_witness :
    extractFirstSseDataJson parse0 "x\ndata: 1\ndata: 2" = .ok (Json.num 1)
    ∧ extractFirstSseDataJson parse0 "x\ny" =
        .error (.decodeError ("No SSE data line found. Raw: " ++ String.mk (("x\ny" : String).data.take 500))) := by
  constructor
  · exact ((c5_sse_decoder parse0 "x\ndata: 1\ndata: 2").2
      [("x" : String).data] ("data: 1" : String).data [("data: 2" : String).data]
      (by decide) (by decide) (by decide)).2 (Json.num 1) rfl
  · exact (c5_sse_decoder parse0 "x\ny").1 (by decide)

/-- C6: a request body without a string `method` field (not an object, or
missing or non-string `method`) yields HTTP 400 with JSON-RPC error
`-32600` and id `null`, leaves the session table untouched, and issues no
upstream call. -/
theorem c6_malformed_request (env : Env) (st : SessionMap) (rpc : Json)
    (hdr : Option String) (h : rpc.getMethod = none) :
    handleMcpPost env st rpc hdr =
      ({ status := 400, sessionHeader := none,
         body := .json (jsonRpcError Json.null (-32600) "Invalid Request") }, st, []) :=
  handleMcpPost_of_ok (handleInner_malformed h)

theorem c6_malformed_request_witness :
    handleMcpPost envOk [] (Json.str "hi") none =
      ({ status := 400, sessionHeader := none,
         body := .json (jsonRpcError Json.null (-32600) "Invalid Request") }, [], []) :=
  c6_malformed_request envOk [] (Json.str "hi") none rfl

/-- C3: a bound call (method neither `initialize` nor prefixed with the
notification marker) whose session header is absent or is not a key of the
session table yields HTTP 400 with JSON-RPC error `-32000` and message
`Missing or unknown Mcp-Session-Id. Call initialize first.`, mirroring the
request id, for every method name; the table is untouched and no upstream
call is issued. -/
theorem c3_unknown_session_bound_call (env : Env) (st : SessionMap) (rpc : Json)
    (hdr : Option String) (m : String) (hm : rpc.getMethod = some m)
    (hni : m ≠ "initialize") (hnn : startsWithList m.data notifMarker.data = false)
    (hsess : hdr = none ∨ ∃ P, hdr = some P ∧ mapGet st P = none) :
    handleMcpPost env st rpc hdr =
      ({ status := 400, sessionHeader := none,
         body := .json (jsonRpcError (idOrNull rpc) (-32000)
           "Missing or unknown Mcp-Session-Id. Call initialize first.") }, st, []) := by
  have hr : resolveSession st hdr = none := by
    rcases hsess with h | ⟨P, hP, hg⟩
    · rw [h]
      rfl
    · rw [hP]
      exact resolveSession_unknown hg
  exact handleMcpPost_of_ok (handleInner_bound_unknown hm hnn hni hr)

theorem c3_unknown_session_bound_call_witness :
    handleMcpPost envOk [] rpcBound (some "P9") =
      ({ status := 400, sessionHeader := none,
         body := .json (jsonRpcError (idOrNull rpcBound) (-32000)
           "Missing or unknown Mcp-Session-Id. Call initialize first.") }, [], []) :=
  c3_unknown_session_bound_call envOk [] rpcBound (some "P9") "tools/call" rfl
    (by decide) (by decide) (Or.inr ⟨"P9", rfl, rfl⟩)

/-- C1 counterexample: on a concrete initialize request whose upstream call
returns no session id, the handler responds with the message
`Upstream did not return Mcp-Session-Id`, which is not the message
`Upstream did not return session id` stated by the claim. -/
theorem c1_message_counterexample :
    (handleMcpPost envNoSid [] rpcInit none).1 =
      { status := 500, sessionHeader := none,
        body := .json (jsonRpcError (Json.num 1) (-32000)
          "Upstream did not return Mcp-Session-Id") }
    ∧ "Upstream did not return Mcp-Session-Id" ≠ "Upstream did not return session id" :=
  ⟨rfl, by decide⟩

/-- C1 (amended): on an initialize request the upstream is called exactly
once with no upstream session id; when that call returns, a falsy upstream
session id yields JSON-RPC error `-32000` with message
`Upstream did not return Mcp-Session-Id` at HTTP 500 and an unchanged
session table, while a truthy upstream session id `u` yields HTTP 200, a
freshly generated proxy id in the `Mcp-Session-Id` response header (never
`u` itself as the stored upstream id is only written into the table), the
pair (proxy id, `u`) inserted into the table, and the decoded upstream
payload verbatim as the body. -/
theorem c1_initialize_amended (env : Env) (st : SessionMap) (rpc : Json)
    (hdr : Option String) (hm : rpc.getMethod = some "initialize") :
    (handleMcpPost env st rpc hdr).2.2 = [{ sessionId := none, rpc := rpc }]
    ∧ (∀ upSid payload, callUpstreamMcp env none = .ok (upSid, payload) →
        (truthyOpt upSid = none →
          handleMcpPost env st rpc hdr =
            ({ status := 500, sessionHeader := none,
               body := .json (jsonRpcError (idOrNull rpc) (-32000)
                 "Upstream did not return Mcp-Session-Id") }, st,
             [{ sessionId := none, rpc := rpc }]))
        ∧ (∀ u, truthyOpt upSid = some u →
            handleMcpPost env st rpc hdr =
              ({ status := 200,
                 sessionHeader := some (generateSessionId env.now env.randPart),
                 body := .json payload },
               mapSet st (generateSessionId env.now env.randPart) u,
               [{ sessionId := none, rpc := rpc }])
            ∧ mapGet (handleMcpPost env st rpc hdr).2.1
                (generateSessionId env.now env.randPart) = some u)) := by
  constructor
  · rcases hc : callUpstreamMcp env none with e | ⟨upSid, payload⟩
    · rw [handleMcpPost_of_error (handleInner_init_callErr hm hc)]
    · rcases ht : truthyOpt upSid with _ | u
      · rw [handleMcpPost_of_ok (handleInner_init_noSid hm hc ht)]
      · rw [handleMcpPost_of_ok (handleInner_init_ok hm hc ht)]
  · intro upSid payload hc
    constructor
    · intro ht
      exact handleMcpPost_of_ok (handleInner_init_noSid hm hc ht)
    · intro u ht
      have h1 := handleMcpPost_of_ok (@handleInner_init_ok env st rpc hdr upSid payload u hm hc ht)
      refine ⟨h1, ?_⟩
      rw [h1]
      exact mapGet_mapSet_self st (generateSessionId env.now env.randPart) u

theorem c1_initialize_amended_witness :
    (handleMcpPost envOk [] rpcInit none).2.2 = [{ sessionId := none, rpc := rpcInit }]
    ∧ handleMcpPost envOk [] rpcInit none =
        ({ status := 200, sessionHeader := some (generateSessionId envOk.now envOk.randPart),
           body := .json (Json.num 1) },
         mapSet [] (generateSessionId envOk.now envOk.randPart) "U1",
         [{ sessionId := none, rpc := rpcInit }])
    ∧ mapGet (handleMcpPost envOk [] rpcInit none).2.1
        (generateSessionId envOk.now envOk.randPart) = some "U1" := by
  have h := c1_initialize_amended envOk [] rpcInit none rfl
  have h2 := (h.2 (some "U1") (Json.num 1) rfl).2 "U1" rfl
  exact ⟨h.1, h2.1, h2.2⟩

/-- C2: when the session table maps proxy id `P` to upstream id `U`, no
handled request ever removes the entry (a lookup of `P` still succeeds
afterwards); as long as the freshly generated proxy id differs from `P`
(the generator collides only with negligible probability), the entry still
maps `P` to exactly `U`; and a bound call carrying header `P` forwards
exactly one upstream call bound to `U`. -/
theorem c2_session_stability (env : Env) (st : SessionMap) (rpc : Json)
    (hdr : Option String) (P U : String) (hPU : mapGet st P = some U) :
    ((mapGet (handleMcpPost env st rpc hdr).2.1 P).isSome = true)
    ∧ (generateSessionId env.now env.randPart ≠ P →
        mapGet (handleMcpPost env st rpc hdr).2.1 P = some U)
    ∧ (∀ m, rpc.getMethod = some m → startsWithList m.data notifMarker.data = false →
        m ≠ "initialize" → hdr = some P → P ≠ "" → U ≠ "" →
        (handleMcpPost env st rpc hdr).2.2 = [{ sessionId := some U, rpc := rpc }]) := by
  refine ⟨?_, ?_, ?_⟩
  · rcases handleMcpPost_state_cases env st rpc hdr with h | ⟨_, _, u, _, h⟩
    · rw [h, hPU]
      rfl
    · rw [h]
      exact mapGet_isSome_mapSet _ u (by rw [hPU]; rfl)
  · intro hfresh
    rcases handleMcpPost_state_cases env st rpc hdr with h | ⟨_, _, u, _, h⟩
    · rw [h, hPU]
    · rw [h, mapGet_mapSet_ne st u hfresh, hPU]
  · intro m hm hs hne hhdr hP hU
    have hr : resolveSession st hdr = some U := by
      rw [hhdr]
      exact resolveSession_known hP hU hPU
    rcases hc : callUpstreamMcp env (some U) with e | ⟨sid, payload⟩
    · rw [handleMcpPost_of_error (handleInner_bound_callErr hm hs hne hr hc)]
    · rw [handleMcpPost_of_ok (handleInner_bound_ok hm hs hne hr hc)]

theorem c2_session_stability_witness :
    ((mapGet (handleMcpPost envOk [("P1", "U1")] rpcBound7 (some "P1")).2.1 "P1").isSome = true)
    ∧ mapGet (handleMcpPost envOk [("P1", "U1")] rpcBound7 (some "P1")).2.1 "P1" = some "U1"
    ∧ (handleMcpPost envOk [("P1", "U1")] rpcBound7 (some "P1")).2.2 =
        [{ sessionId := some "U1", rpc := rpcBound7 }] := by
  have h := c2_session_stability envOk [("P1", "U1")] rpcBound7 (some "P1") "P1" "U1" rfl
  exact ⟨h.1, h.2.1 (by decide),
    h.2.2 "tools/call" rfl (by decide) (by decide) rfl (by decide) (by decide)⟩

/-- C4: a notification request (method prefixed with the notification
marker) with an absent session header or one that is not a key of the
session table yields HTTP 204 with empty body, no session header, no table
change and no upstream call; with a header `P` resolving through the table
to a truthy upstream id `U` (table entries are always truthy by the session
invariant), and an upstream transport that resolves, exactly one call bound
to `U` is forwarded, `P` is echoed in the `Mcp-Session-Id` response header,
and the response is HTTP 204 with empty body. -/
theorem c4_notification_paths (env : Env) (st : SessionMap) (rpc : Json)
    (hdr : Option String) (m : String) (hm : rpc.getMethod = some m)
    (hs : startsWithList m.data notifMarker.data = true) :
    ((hdr = none ∨ ∃ P, hdr = some P ∧ mapGet st P = none) →
      handleMcpPost env st rpc hdr =
        ({ status := 204, sessionHeader := none, body := .empty }, st, []))
    ∧ (∀ P U fr, hdr = some P → P ≠ "" → mapGet st P = some U → U ≠ "" →
        env.fetchResult = .ok fr →
        handleMcpPost env st rpc hdr =
          ({ status := 204, sessionHeader := some P, body := .empty }, st,
           [{ sessionId := some U, rpc := rpc }])) := by
  constructor
  · intro hsess
    have hr : resolveSession st hdr = none := by
      rcases hsess with h | ⟨P, hP, hg⟩
      · rw [h]
        rfl
      · rw [hP]
        exact resolveSession_unknown hg
    exact handleMcpPost_of_ok (handleInner_notif_unknown hm hs hr)
  · intro P U fr hhdr hP hPU hU hf
    subst hhdr
    have hr : resolveSession st (some P) = some U := resolveSession_known hP hU hPU
    exact handleMcpPost_of_ok (handleInner_notif_fetchOk hm hs hr hf)

theorem c4_notification_paths_witness :
    handleMcpPost envOk [("P1", "U1")] rpcNotif (some "P1") =
      ({ status := 204, sessionHeader := some "P1", body := .empty }, [("P1", "U1")],
       [{ sessionId := some "U1", rpc := rpcNotif }]) :=
  (c4_notification_paths envOk [("P1", "U1")] rpcNotif (some "P1")
      "notifications/initialized" rfl (by decide)).2
    "P1" "U1" { ok := true, status := 200, sessionHeader := some "U1", body := "data: 1" }
    rfl (by decide) rfl (by decide) rfl

/-- C7 counterexample: a notification with a known session whose forwarded
upstream call resolves with a non-success HTTP status (the environment
carries `ok := false`, status 500) is still answered HTTP 204 with empty
body — the upstream failure is silently swallowed even though it is not the
unknown-session tolerance: the forward did happen. -/
theorem c7_swallowed_status_counterexample :
    (handleMcpPost envBadStatus [("P1", "U1")] rpcNotif (some "P1")).2.2 =
      [{ sessionId := some "U1", rpc := rpcNotif }]
    ∧ (handleMcpPost envBadStatus [("P1", "U1")] rpcNotif (some "P1")).1 =
        { status := 204, sessionHeader := some "P1", body := .empty } :=
  ⟨rfl, rfl⟩

/-- C7 (amended): every exception thrown in the three dispatch paths is
caught at the single router boundary and surfaces as JSON-RPC error
`-32000` with the exception message and id `null` at HTTP 500: any error
escaping the try body, any failing upstream call of an initialize, any
failing upstream call of a bound call with a resolved session, and a
rejected notification forward; a notification whose session does not
resolve is answered HTTP 204 without consulting the upstream, and (per the
counterexample) a notification forward whose fetch resolves is answered
HTTP 204 with the upstream status never inspected. -/
theorem c7_error_boundary_amended (env : Env) (st : SessionMap) (rpc : Json)
    (hdr : Option String) :
    (∀ e s c, handleInner env st rpc hdr = (.error e, s, c) →
      (handleMcpPost env st rpc hdr).1 =
        { status := 500, sessionHeader := none,
          body := .json (jsonRpcError Json.null (-32000) e) })
    ∧ (∀ e, rpc.getMethod = some "initialize" → callUpstreamMcp env none = .error e →
        (handleMcpPost env st rpc hdr).1 = catchResponse e)
    ∧ (∀ e m u, rpc.getMethod = some m → startsWithList m.data notifMarker.data = false →
        m ≠ "initialize" → resolveSession st hdr = some u →
        callUpstreamMcp env (some u) = .error e →
        (handleMcpPost env st rpc hdr).1 = catchResponse e)
    ∧ (∀ e m u, rpc.getMethod = some m → startsWithList m.data notifMarker.data = true →
        resolveSession st hdr = some u → env.fetchResult = .error e →
        (handleMcpPost env st rpc hdr).1 = catchResponse e)
    ∧ (∀ m, rpc.getMethod = some m → startsWithList m.data notifMarker.data = true →
        resolveSession st hdr = none →
        (handleMcpPost env st rpc hdr).1 =
          { status := 204, sessionHeader := none, body := .empty }) := by
  refine ⟨?_, ?_, ?_, ?_, ?_⟩
  · intro e s c h
    rw [handleMcpPost_of_error h]
    rfl
  · intro e hm hc
    rw [handleMcpPost_of_error (handleInner_init_callErr hm hc)]
  · intro e m u hm hs hne hr hc
    rw [handleMcpPost_of_error (handleInner_bound_callErr hm hs hne hr hc)]
  · intro e m u hm hs hr hf
    rw [handleMcpPost_of_error (handleInner_notif_fetchErr hm hs hr hf)]
  · intro m hm hs hr
    rw [handleMcpPost_of_ok (handleInner_notif_unknown hm hs hr)]

theorem c7_error_boundary_amended_witness :
    (handleMcpPost envErr [] rpcInit none).1 = catchResponse "boom" :=
  (c7_error_boundary_amended envErr [] rpcInit none).2.1 "boom" rfl rfl

/-- C8 counterexample: a well-formed bound call carrying id 7 whose
upstream call throws is answered by the catch boundary with id `null`, not
the request id, so the error-boundary response does not mirror the inbound
id. -/
theorem c8_catch_id_counterexample :
    idOrNull rpcBound7 = Json.num 7
    ∧ (handleMcpPost envErr [("P1", "U1")] rpcBound7 (some "P1")).1 =
        { status := 500, sessionHeader := none,
          body := .json (jsonRpcError Json.null (-32000) "boom") }
    ∧ Json.null ≠ Json.num 7 := by
  refine ⟨rfl, rfl, ?_⟩
  intro h
  exact Json.noConfusion h

/-- C8 (amended): the error responses the router itself builds mirror the
request id — the unknown-session bound-call error and the
initialize-failure error both carry `rpc.id` (with `null` as default) —
while the malformed-request error and every catch-boundary error response
carry id `null` regardless of the request id; success responses pass the
decoded upstream payload through as the body without touching its id. -/
theorem c8_response_id_amended (env : Env) (st : SessionMap) (rpc : Json)
    (hdr : Option String) :
    (∀ e s c, handleInner env st rpc hdr = (.error e, s, c) →
      (handleMcpPost env st rpc hdr).1.body = .json (jsonRpcError Json.null (-32000) e))
    ∧ (rpc.getMethod = none →
        (handleMcpPost env st rpc hdr).1.body =
          .json (jsonRpcError Json.null (-32600) "Invalid Request"))
    ∧ (∀ m, rpc.getMethod = some m → startsWithList m.data notifMarker.data = false →
        m ≠ "initialize" → resolveSession st hdr = none →
        (handleMcpPost env st rpc hdr).1.body =
          .json (jsonRpcError (idOrNull rpc) (-32000)
            "Missing or unknown Mcp-Session-Id. Call initialize first."))
    ∧ (∀ upSid payload, rpc.getMethod = some "initialize" →
        callUpstreamMcp env none = .ok (upSid, payload) → truthyOpt upSid = none →
        (handleMcpPost env st rpc hdr).1.body =
          .json (jsonRpcError (idOrNull rpc) (-32000)
            "Upstream did not return Mcp-Session-Id"))
    ∧ (∀ m u sid payload, rpc.getMethod = some m →
        startsWithList m.data notifMarker.data = false → m ≠ "initialize" →
        resolveSession st hdr = some u → callUpstreamMcp env (some u) = .ok (sid, payload) →
        (handleMcpPost env st rpc hdr).1.body = .json payload) := by
  refine ⟨?_, ?_, ?_, ?_, ?_⟩
  · intro e s c h
    rw [handleMcpPost_of_error h]
    rfl
  · intro h
    rw [handleMcpPost_of_ok (handleInner_malformed h)]
  · intro m hm hs hne hr
    rw [handleMcpPost_of_ok (handleInner_bound_unknown hm hs hne hr)]
  · intro upSid payload hm hc ht
    rw [handleMcpPost_of_ok (handleInner_init_noSid hm hc ht)]
  · intro m u sid payload hm hs hne hr hc
    rw [handleMcpPost_of_ok (handleInner_bound_ok hm hs hne hr hc)]

theorem c8_response_id_amended_witness :
    (handleMcpPost envOk [] rpcBound (some "P9")).1.body =
      .json (jsonRpcError (idOrNull rpcBound) (-32000)
        "Missing or unknown Mcp-Session-Id. Call initialize first.") :=
  (c8_response_id_amended envOk [] rpcBound (some "P9")).2.2.1 "tools/call" rfl
    (by decide) (by decide) (resolveSession_unknown rfl)

/-- C9: a failed call never corrupts the session table: whenever the
response status is 400 or 500 the table after the request equals the table
before it, and whenever the table changed at all the request was an
initialize answered with HTTP 200 — the success path of initialize is the
only writer. -/
theorem c9_failure_preserves_sessions (env : Env) (st : SessionMap) (rpc : Json)
    (hdr : Option String) :
    (((handleMcpPost env st rpc hdr).1.status = 400
        ∨ (handleMcpPost env st rpc hdr).1.status = 500) →
      (handleMcpPost env st rpc hdr).2.1 = st)
    ∧ ((handleMcpPost env st rpc hdr).2.1 ≠ st →
      rpc.getMethod = some "initialize" ∧ (handleMcpPost env st rpc hdr).1.status = 200) := by
  rcases handleMcpPost_state_cases env st rpc hdr with h | ⟨hm, hstat, u, hu, h⟩
  · exact ⟨fun _ => h, fun hne => absurd h hne⟩
  · refine ⟨fun hor => ?_, fun _ => ⟨hm, hstat⟩⟩
    rcases hor with h4 | h5
    · rw [hstat] at h4
      exact absurd h4 (by decide)
    · rw [hstat] at h5
      exact absurd h5 (by decide)

theorem c9_failure_preserves_sessions_witness :
    (handleMcpPost envErr [("P1", "U1")] rpcBound7 (some "P1")).2.1 = [("P1", "U1")] :=
  (c9_failure_preserves_sessions envErr [("P1", "U1")] rpcBound7 (some "P1")).1 (Or.inr rfl)

/-- C10: the truthiness invariant of the session table — every stored proxy
id and upstream id is a non-empty string — is preserved by every handled
request (the initialize path inserts only a truthy upstream id under a
freshly generated, dash-containing proxy id); consequently, for every proxy
id `P` that is a key of the table, a notification carrying header `P`
forwards its one upstream call (it never takes the 204-without-forward
branch) and a bound call carrying header `P` forwards its one upstream
call (it never takes the `-32000` unknown-session branch). -/
theorem c10_truthy_invariant (env : Env) (st : SessionMap) (rpc : Json)
    (hdr : Option String) (hinv : SessionInv st) :
    SessionInv (handleMcpPost env st rpc hdr).2.1
    ∧ (∀ P U, mapGet st P = some U →
        ∀ m, rpc.getMethod = some m →
          ((startsWithList m.data notifMarker.data = true → hdr = some P →
            (handleMcpPost env st rpc hdr).2.2 = [{ sessionId := some U, rpc := rpc }])
          ∧ (startsWithList m.data notifMarker.data = false → m ≠ "initialize" →
              hdr = some P →
            (handleMcpPost env st rpc hdr).2.2 = [{ sessionId := some U, rpc := rpc }]))) := by
  constructor
  · rcases handleMcpPost_state_cases env st rpc hdr with h | ⟨_, _, u, hu, h⟩
    · rw [h]
      exact hinv
    · rw [h]
      intro p hp
      cases hp with
      | head => exact ⟨generateSessionId_ne_empty env.now env.randPart, hu⟩
      | tail b hp => exact hinv p hp
  · intro P U hPU m hm
    have hmem := mapGet_mem hPU
    have hP : P ≠ "" := (hinv (P, U) hmem).1
    have hU : U ≠ "" := (hinv (P, U) hmem).2
    constructor
    · intro hs hhdr
      subst hhdr
      have hr : resolveSession st (some P) = some U := resolveSession_known hP hU hPU
      rcases hf : env.fetchResult with e | fr
      · rw [handleMcpPost_of_error (handleInner_notif_fetchErr hm hs hr hf)]
      · rw [handleMcpPost_of_ok (handleInner_notif_fetchOk hm hs hr hf)]
    · intro hs hne hhdr
      subst hhdr
      have hr : resolveSession st (some P) = some U := resolveSession_known hP hU hPU
      rcases hc : callUpstreamMcp env (some U) with e | ⟨sid, payload⟩
      · rw [handleMcpPost_of_error (handleInner_bound_callErr hm hs hne hr hc)]
      · rw [handleMcpPost_of_ok (handleInner_bound_ok hm hs hne hr hc)]

theorem sessionInvP1 : SessionInv [("P1", "U1")] := by
  intro p hp
  simp at hp
  rw [hp]
  exact ⟨by decide, by decide⟩

theorem c10_truthy_invariant_witness :
    SessionInv (handleMcpPost envOk [("P1", "U1")] rpcInit none).2.1
    ∧ (handleMcpPost envOk [("P1", "U1")] rpcNotif (some "P1")).2.2 =
        [{ sessionId := some "U1", rpc := rpcNotif }] := by
  constructor
  · exact (c10_truthy_invariant envOk [("P1", "U1")] rpcInit none sessionInvP1).1
  · exact ((((c10_truthy_invariant envOk [("P1", "U1")] rpcNotif (some "P1")
      sessionInvP1).2 "P1" "U1" rfl) "notifications/initialized" rfl).1 (by decide) rfl)
